import Mathlib

/-!
Verification of the payment-challenge / commitment-authorization protocol
of this repository, as a shallow embedding in Lean 4.

Part 1 embeds the `ArcAgentController` Solidity contract
(demos/autonomous-settlement/contracts, embedded in deploy.cjs):
a stateful authorization gate that validates a signed commitment
(nonce replay, decision, freshness, signature) and only then moves funds.
Solidity `require` reverts every effect of the call, so a call is modelled
as `Except ContractError ControllerState`: an error result means the state
is unchanged (the revert).  Machine integers (`uint256`) are modelled as
`Nat`; the only arithmetic in the contract is `commitment.timestamp + 3600`
and balance bookkeeping, far from the 2^256 wrap, and checked arithmetic
in Solidity 0.8 reverts on overflow rather than wrapping.
ECDSA recovery over the EIP-712 digest is opaque cryptography: it is
modelled as an environment-supplied function of the signature and the
commitment fields (the digest is a function of exactly those and of the
fixed contract domain).
-/

/-- Account / contract addresses, abstracted. -/
abbrev Address := Nat

/-- Opaque signature blobs, abstracted. -/
abbrev SignatureBytes := Nat

/-- The `Commitment` struct of ArcAgentController:
`(bytes32 proofHash, uint256 decision, uint256 timestamp, uint256 nonce)`. -/
structure Commitment where
  proofHash : Nat
  decision : Nat
  timestamp : Nat
  nonce : Nat
deriving DecidableEq, Repr

/-- The `TransferExecuted` audit event emitted on a successful transfer. -/
structure TransferEvent where
  toAddr : Address
  amount : Nat
  proofHash : Nat
  decision : Nat
  nonce : Nat
  timestamp : Nat
deriving DecidableEq, Repr

/-- Mutable contract state: the `usedNonces` mapping (as the list of nonces
marked true), the contract's own USDC balance (custody), and the emitted
audit events (most recent first). -/
structure ControllerState where
  usedNonces : List Nat
  balance : Nat
  events : List TransferEvent
deriving DecidableEq, Repr

/-- Revert reasons of the contract, one per `require` site.
`NonceReplay` is "Nonce already used", `NotAuthorized` is
"Transfer not authorized by zkML", `CommitmentExpired` is
"Commitment expired", `InvalidSignature` is "Invalid signature",
`TransferFailed` is "USDC transfer failed" / "Withdrawal failed",
`DepositFailed` is "Deposit failed", and `NotOwner` is the
`onlyOwner` modifier revert. -/
inductive ContractError where
  | NonceReplay
  | NotAuthorized
  | CommitmentExpired
  | InvalidSignature
  | TransferFailed
  | DepositFailed
  | NotOwner
deriving DecidableEq, Repr

/-- Immutable deployment environment: the contract owner (the registered
authorized signer) and the abstracted
`ECDSA.recover(_hashTypedDataV4(structHash), signature)` function. -/
structure ControllerEnv where
  owner : Address
  recover : SignatureBytes → Commitment → Address

/-- The hard-coded freshness window of `executeTransfer`: 1 hour. -/
def freshnessWindow : Nat := 3600

/-- `executeTransfer(toAddr, amount, commitment, signature)`:
checks, in source order, (1) `!usedNonces[commitment.nonce]`,
(2) `commitment.decision == 1`, (3) `block.timestamp <= commitment.timestamp
+ 3600`, (4) `ECDSA.recover(digest, signature) == owner()`; then marks the
nonce used, performs `usdc.transfer(toAddr, amount)` (which fails when the
custody balance is below `amount`), and emits `TransferExecuted`.  Any
failing `require` reverts the whole call, which the `Except` error arm
models: an error carries no successor state. -/
def executeTransfer (env : ControllerEnv) (now : Nat) (toAddr : Address) (amount : Nat)
    (c : Commitment) (sig : SignatureBytes) (s : ControllerState) :
    Except ContractError ControllerState :=
  if c.nonce ∈ s.usedNonces then .error .NonceReplay
  else if c.decision = 1 then
    if now ≤ c.timestamp + freshnessWindow then
      if env.recover sig c = env.owner then
        if amount ≤ s.balance then
          .ok { usedNonces := c.nonce :: s.usedNonces,
                balance := s.balance - amount,
                events := { toAddr := toAddr, amount := amount,
                            proofHash := c.proofHash, decision := c.decision,
                            nonce := c.nonce,
                            timestamp := c.timestamp } :: s.events }
        else .error .TransferFailed
      else .error .InvalidSignature
    else .error .CommitmentExpired
  else .error .NotAuthorized

/-- `deposit(amount)`: callable by any address (there is no `onlyOwner`
modifier on it in the source); performs
`usdc.transferFrom(msg.sender, address(this), amount)`, which succeeds iff
the sender's USDC balance and allowance cover `amount` (modelled as the
single bound `senderFunds`). -/
def deposit (sender : Address) (senderFunds : Nat) (amount : Nat)
    (s : ControllerState) : Except ContractError ControllerState :=
  if amount ≤ senderFunds then .ok { s with balance := s.balance + amount }
  else .error .DepositFailed

/-- `withdraw(amount)`: `onlyOwner`; performs `usdc.transfer(msg.sender,
amount)`, which fails when the custody balance is below `amount`. -/
def withdraw (env : ControllerEnv) (sender : Address) (amount : Nat)
    (s : ControllerState) : Except ContractError ControllerState :=
  if sender ≠ env.owner then .error .NotOwner
  else if amount ≤ s.balance then .ok { s with balance := s.balance - amount }
  else .error .TransferFailed

/-- The external calls of the contract that touch state. -/
inductive ContractCall where
  | execTransfer (now : Nat) (toAddr : Address) (amount : Nat)
      (c : Commitment) (sig : SignatureBytes)
  | depositCall (sender : Address) (senderFunds : Nat) (amount : Nat)
  | withdrawCall (sender : Address) (amount : Nat)

/-- One external call as an `Except` step. -/
def stepCall (env : ControllerEnv) : ContractCall → ControllerState →
    Except ContractError ControllerState
  | .execTransfer now toAddr amount c sig, s => executeTransfer env now toAddr amount c sig s
  | .depositCall sender funds amount, s => deposit sender funds amount s
  | .withdrawCall sender amount, s => withdraw env sender amount s

/-- The ledger-level effect of a call: a reverted call leaves the state
unchanged. -/
def applyCall (env : ControllerEnv) (op : ContractCall) (s : ControllerState) :
    ControllerState :=
  match stepCall env op s with
  | .ok s' => s'
  | .error _ => s

/-- Running a sequence of external calls, reverts included. -/
def runCalls (env : ControllerEnv) (ops : List ContractCall)
    (s : ControllerState) : ControllerState :=
  ops.foldl (fun st op => applyCall env op st) s

/-- Success of `executeTransfer`, characterized: exactly the four
validation checks plus a sufficient custody balance, and the three
effects (nonce marked, balance debited, event appended). -/
theorem executeTransfer_ok_iff (env : ControllerEnv) (now : Nat) (toAddr : Address)
    (amount : Nat) (c : Commitment) (sig : SignatureBytes) (s : ControllerState)
    (s' : ControllerState) :
    executeTransfer env now toAddr amount c sig s = .ok s' ↔
      c.nonce ∉ s.usedNonces ∧ c.decision = 1 ∧
      now ≤ c.timestamp + freshnessWindow ∧ env.recover sig c = env.owner ∧
      amount ≤ s.balance ∧
      s' = { usedNonces := c.nonce :: s.usedNonces,
             balance := s.balance - amount,
             events := { toAddr := toAddr, amount := amount, proofHash := c.proofHash,
                         decision := c.decision, nonce := c.nonce,
                         timestamp := c.timestamp } :: s.events } := by
  unfold executeTransfer
  by_cases h1 : c.nonce ∈ s.usedNonces <;> simp [h1]
  by_cases h2 : c.decision = 1 <;> simp [h2]
  by_cases h3 : now ≤ c.timestamp + freshnessWindow <;> simp [h3]
  by_cases h4 : env.recover sig c = env.owner <;> simp [h4]
  by_cases h5 : amount ≤ s.balance <;> simp [h5, eq_comm]

/-- A used nonce stays used across any single external call. -/
theorem usedNonces_mono (env : ControllerEnv) (op : ContractCall)
    (s : ControllerState) (n : Nat) (h : n ∈ s.usedNonces) :
    n ∈ (applyCall env op s).usedNonces := by
  unfold applyCall stepCall
  cases op with
  | execTransfer now toAddr amount c sig =>
      unfold executeTransfer
      by_cases h1 : c.nonce ∈ s.usedNonces <;>
        by_cases h2 : c.decision = 1 <;>
        by_cases h3 : now ≤ c.timestamp + freshnessWindow <;>
        by_cases h4 : env.recover sig c = env.owner <;>
        by_cases h5 : amount ≤ s.balance <;>
        simp [h1, h2, h3, h4, h5, h]
  | depositCall sender funds amount =>
      unfold deposit
      by_cases h1 : amount ≤ funds <;> simp [h1, h]
  | withdrawCall sender amount =>
      unfold withdraw
      by_cases h1 : sender = env.owner <;> by_cases h2 : amount ≤ s.balance <;>
        simp [h1, h2, h]

/-- A used nonce stays used across any sequence of external calls. -/
theorem usedNonces_mono_run (env : ControllerEnv) (ops : List ContractCall)
    (s : ControllerState) (n : Nat) (h : n ∈ s.usedNonces) :
    n ∈ (runCalls env ops s).usedNonces := by
  induction ops generalizing s with
  | nil => simpa [runCalls] using h
  | cons op rest ih =>
      have := usedNonces_mono env op s n h
      simpa [runCalls] using ih (applyCall env op s) this

/-- Claim C1: once an `executeTransfer` with nonce `N` succeeds, the nonce
is in `usedNonces` and stays there under every later external call, so
every subsequent `executeTransfer` presenting a commitment with nonce `N`
fails with `NonceReplay` ("Nonce already used") — at most one call per
nonce ever succeeds. -/
theorem executeTransfer_nonce_single_use (env : ControllerEnv) (now : Nat)
    (toAddr : Address) (amount : Nat) (c : Commitment) (sig : SignatureBytes)
    (s s' : ControllerState)
    (hok : executeTransfer env now toAddr amount c sig s = .ok s')
    (ops : List ContractCall) (now₂ : Nat) (to₂ : Address) (amount₂ : Nat)
    (c₂ : Commitment) (sig₂ : SignatureBytes) (hn : c₂.nonce = c.nonce) :
    executeTransfer env now₂ to₂ amount₂ c₂ sig₂ (runCalls env ops s') =
      .error .NonceReplay := by
  have hmem : c.nonce ∈ s'.usedNonces := by
    rcases (executeTransfer_ok_iff env now toAddr amount c sig s s').1 hok with
      ⟨-, -, -, -, -, hs⟩
    subst hs
    exact List.mem_cons_self _ _
  have hmem' : c₂.nonce ∈ (runCalls env ops s').usedNonces := by
    rw [hn]
    exact usedNonces_mono_run env ops s' c.nonce hmem
  unfold executeTransfer
  simp [hmem']

/-- Witness for C1: a concrete successful transfer with nonce 42, followed
by a deposit, after which a second call with nonce 42 fails `NonceReplay`. -/
theorem executeTransfer_nonce_single_use_witness :
    executeTransfer ⟨1, fun sig _ => sig⟩ 10 2 5 ⟨7, 1, 10, 42⟩ 1
        ⟨[], 100, []⟩ = .ok ⟨[42], 95, [⟨2, 5, 7, 1, 42, 10⟩]⟩ ∧
    executeTransfer ⟨1, fun sig _ => sig⟩ 11 3 1 ⟨9, 1, 11, 42⟩ 1
        (runCalls ⟨1, fun sig _ => sig⟩ [.depositCall 8 50 20]
          ⟨[42], 95, [⟨2, 5, 7, 1, 42, 10⟩]⟩) = .error .NonceReplay := by
  refine ⟨rfl, ?_⟩
  exact executeTransfer_nonce_single_use ⟨1, fun sig _ => sig⟩ 10 2 5
    ⟨7, 1, 10, 42⟩ 1 ⟨[], 100, []⟩ ⟨[42], 95, [⟨2, 5, 7, 1, 42, 10⟩]⟩
    rfl [.depositCall 8 50 20] 11 3 1 ⟨9, 1, 11, 42⟩ 1 rfl

/-- Claim C2: a commitment whose `decision` is not `1` (AUTHORIZED) never
makes `executeTransfer` succeed — no funds move, whatever the signature —
and, when the nonce is not already consumed (the check before it), the
reported rejection is exactly `NotAuthorized`; this covers every other
decision value, the explicit denied code `0` included. -/
theorem executeTransfer_denied_never_transfers (env : ControllerEnv)
    (now : Nat) (toAddr : Address) (amount : Nat) (c : Commitment)
    (sig : SignatureBytes) (s : ControllerState) (hd : c.decision ≠ 1) :
    (∀ s', executeTransfer env now toAddr amount c sig s ≠ .ok s') ∧
    (c.nonce ∉ s.usedNonces →
      executeTransfer env now toAddr amount c sig s = .error .NotAuthorized) := by
  constructor
  · intro s' hok
    rcases (executeTransfer_ok_iff env now toAddr amount c sig s s').1 hok with
      ⟨-, h2, -⟩
    exact hd h2
  · intro hn
    unfold executeTransfer
    simp [hn, hd]

/-- Witness for C2: a concrete commitment with decision `0` and a signature
that does recover to the owner is rejected as `NotAuthorized`. -/
theorem executeTransfer_denied_never_transfers_witness :
    executeTransfer ⟨1, fun sig _ => sig⟩ 10 2 5 ⟨7, 0, 10, 3⟩ 1
      ⟨[], 100, []⟩ = .error .NotAuthorized :=
  (executeTransfer_denied_never_transfers ⟨1, fun sig _ => sig⟩ 10 2 5
    ⟨7, 0, 10, 3⟩ 1 ⟨[], 100, []⟩ (by decide)).2 (by decide)

/-- Claim C3: the three success effects of `executeTransfer` are atomic.
Conjuncts: (1) any reverted call leaves the nonce set, the custody balance
and the audit events exactly as they were; (2) when all four validation
checks pass but the custody balance cannot cover `amount`, the call reverts
with `TransferFailed` (so by (1) the nonce insertion and the event do not
persist either); (3) a signature not recoverable to the registered signer,
the earlier checks passing, reverts with `InvalidSignature`; (4) a
successful call performs all three effects at once: nonce inserted, balance
debited by `amount`, `TransferExecuted` event appended. -/
theorem executeTransfer_atomic (env : ControllerEnv) (now : Nat)
    (toAddr : Address) (amount : Nat) (c : Commitment) (sig : SignatureBytes)
    (s : ControllerState) :
    (∀ e, executeTransfer env now toAddr amount c sig s = .error e →
      (applyCall env (.execTransfer now toAddr amount c sig) s).usedNonces =
          s.usedNonces ∧
      (applyCall env (.execTransfer now toAddr amount c sig) s).balance =
          s.balance ∧
      (applyCall env (.execTransfer now toAddr amount c sig) s).events =
          s.events) ∧
    (c.nonce ∉ s.usedNonces → c.decision = 1 →
      now ≤ c.timestamp + freshnessWindow → env.recover sig c = env.owner →
      s.balance < amount →
      executeTransfer env now toAddr amount c sig s = .error .TransferFailed) ∧
    (c.nonce ∉ s.usedNonces → c.decision = 1 →
      now ≤ c.timestamp + freshnessWindow → env.recover sig c ≠ env.owner →
      executeTransfer env now toAddr amount c sig s =
        .error .InvalidSignature) ∧
    (∀ s', executeTransfer env now toAddr amount c sig s = .ok s' →
      s'.usedNonces = c.nonce :: s.usedNonces ∧
      s'.balance = s.balance - amount ∧
      s'.events = { toAddr := toAddr, amount := amount,
                    proofHash := c.proofHash, decision := c.decision,
                    nonce := c.nonce,
                    timestamp := c.timestamp } :: s.events) := by
  refine ⟨?_, ?_, ?_, ?_⟩
  · intro e he
    unfold applyCall stepCall
    simp [he]
  · intro h1 h2 h3 h4 h5
    unfold executeTransfer
    simp [h1, h2, h3, h4, Nat.not_le.2 h5]
  · intro h1 h2 h3 h4
    unfold executeTransfer
    simp [h1, h2, h3, h4]
  · intro s' hok
    rcases (executeTransfer_ok_iff env now toAddr amount c sig s s').1 hok with
      ⟨-, -, -, -, -, hs⟩
    subst hs
    exact ⟨rfl, rfl, rfl⟩

/-- Witness for C3: a concrete call whose signature recovers to address 9
instead of the owner 1 reverts with `InvalidSignature`, and the applied
state keeps the empty nonce set, the balance 100 and no events. -/
theorem executeTransfer_atomic_witness :
    executeTransfer ⟨1, fun sig _ => sig⟩ 10 2 5 ⟨7, 1, 10, 3⟩ 9
        ⟨[], 100, []⟩ = .error .InvalidSignature ∧
    (applyCall ⟨1, fun sig _ => sig⟩ (.execTransfer 10 2 5 ⟨7, 1, 10, 3⟩ 9)
        ⟨[], 100, []⟩).usedNonces = [] ∧
    (applyCall ⟨1, fun sig _ => sig⟩ (.execTransfer 10 2 5 ⟨7, 1, 10, 3⟩ 9)
        ⟨[], 100, []⟩).balance = 100 ∧
    (applyCall ⟨1, fun sig _ => sig⟩ (.execTransfer 10 2 5 ⟨7, 1, 10, 3⟩ 9)
        ⟨[], 100, []⟩).events = [] := by
  have hsig := (executeTransfer_atomic ⟨1, fun sig _ => sig⟩ 10 2 5
    ⟨7, 1, 10, 3⟩ 9 ⟨[], 100, []⟩).2.2.1 (by decide) (by decide) (by decide)
    (by decide)
  have hkeep := (executeTransfer_atomic ⟨1, fun sig _ => sig⟩ 10 2 5
    ⟨7, 1, 10, 3⟩ 9 ⟨[], 100, []⟩).1 .InvalidSignature hsig
  exact ⟨hsig, hkeep.1, hkeep.2.1, hkeep.2.2⟩

/-- Claim C4: with the earlier checks (fresh nonce, decision `1`) passing,
a commitment older than the 1-hour window (`now > timestamp + 3600`) is
rejected as `CommitmentExpired` even when the signature recovers to the
owner; and whenever `now ≤ timestamp + 3600` the call never fails with
`CommitmentExpired` — the freshness check passes. -/
theorem executeTransfer_freshness (env : ControllerEnv) (now : Nat)
    (toAddr : Address) (amount : Nat) (c : Commitment) (sig : SignatureBytes)
    (s : ControllerState) :
    (c.nonce ∉ s.usedNonces → c.decision = 1 →
      c.timestamp + freshnessWindow < now →
      executeTransfer env now toAddr amount c sig s =
        .error .CommitmentExpired) ∧
    (now ≤ c.timestamp + freshnessWindow →
      executeTransfer env now toAddr amount c sig s ≠
        .error .CommitmentExpired) := by
  constructor
  · intro h1 h2 h3
    unfold executeTransfer
    simp [h1, h2, Nat.not_le.2 h3]
  · intro h3
    unfold executeTransfer
    by_cases h1 : c.nonce ∈ s.usedNonces <;>
      by_cases h2 : c.decision = 1 <;>
      by_cases h4 : env.recover sig c = env.owner <;>
      by_cases h5 : amount ≤ s.balance <;>
      simp [h1, h2, h3, h4, h5]

/-- Witness for C4: a commitment with timestamp 100 presented at
`now = 7300 > 100 + 3600`, a recovering signature included, is rejected
as `CommitmentExpired`. -/
theorem executeTransfer_freshness_witness :
    executeTransfer ⟨1, fun sig _ => sig⟩ 7300 2 5 ⟨7, 1, 100, 3⟩ 1
      ⟨[], 100, []⟩ = .error .CommitmentExpired :=
  (executeTransfer_freshness ⟨1, fun sig _ => sig⟩ 7300 2 5 ⟨7, 1, 100, 3⟩ 1
    ⟨[], 100, []⟩).1 (by decide) (by decide) (by decide)

/-- Claim C5: the four validation checks run in exactly the source order —
nonce, decision, freshness, signature — so when several would fail the
reported failure is the earliest one's: a consumed nonce yields
`NonceReplay` whatever the other fields; with a fresh nonce a bad decision
yields `NotAuthorized`; with both fine an expired timestamp yields
`CommitmentExpired`; and with all three fine a signature not recovering to
the registered signer yields `InvalidSignature`. -/
theorem executeTransfer_validation_order (env : ControllerEnv) (now : Nat)
    (toAddr : Address) (amount : Nat) (c : Commitment) (sig : SignatureBytes)
    (s : ControllerState) :
    (c.nonce ∈ s.usedNonces →
      executeTransfer env now toAddr amount c sig s = .error .NonceReplay) ∧
    (c.nonce ∉ s.usedNonces → c.decision ≠ 1 →
      executeTransfer env now toAddr amount c sig s = .error .NotAuthorized) ∧
    (c.nonce ∉ s.usedNonces → c.decision = 1 →
      ¬ now ≤ c.timestamp + freshnessWindow →
      executeTransfer env now toAddr amount c sig s =
        .error .CommitmentExpired) ∧
    (c.nonce ∉ s.usedNonces → c.decision = 1 →
      now ≤ c.timestamp + freshnessWindow → env.recover sig c ≠ env.owner →
      executeTransfer env now toAddr amount c sig s =
        .error .InvalidSignature) := by
  refine ⟨?_, ?_, ?_, ?_⟩ <;> intros <;> unfold executeTransfer <;> simp_all

/-- Witness for C5: an input failing all four checks at once — consumed
nonce 42, decision 0, stale timestamp, non-recovering signature — reports
the earliest failure, `NonceReplay`. -/
theorem executeTransfer_validation_order_witness :
    executeTransfer ⟨1, fun sig _ => sig⟩ 999999 2 5 ⟨7, 0, 10, 42⟩ 9
      ⟨[42], 100, []⟩ = .error .NonceReplay :=
  (executeTransfer_validation_order ⟨1, fun sig _ => sig⟩ 999999 2 5
    ⟨7, 0, 10, 42⟩ 9 ⟨[42], 100, []⟩).1 (by decide)

/-- Claim C7 counterexample: `deposit` is not owner-only.  With the owner
registered as address 1, a `deposit` call from address 2 (which is not the
owner) succeeds and credits the custody balance: the source `deposit` has
no `onlyOwner` modifier. -/
theorem deposit_not_owner_only :
    (⟨1, fun sig _ => sig⟩ : ControllerEnv).owner = 1 ∧ (2 : Address) ≠ 1 ∧
    stepCall ⟨1, fun sig _ => sig⟩ (.depositCall 2 10 5) ⟨[], 0, []⟩ =
      .ok ⟨[], 5, []⟩ :=
  ⟨rfl, by decide, rfl⟩

/-- Claim C7 as amended: `withdraw` is owner-only — any non-owner caller is
rejected before funds move — while `deposit` is callable by any address
with sufficient funds; both bypass commitment validation entirely (neither
reads a commitment, a signature or the nonce set); and the custody balance
strictly decreases in a successful external call only when that call is a
validated `executeTransfer` or a `withdraw` issued by the owner. -/
theorem custody_management_amended (env : ControllerEnv) :
    (∀ (sender : Address) (amount : Nat) (s : ControllerState),
      sender ≠ env.owner →
      withdraw env sender amount s = .error .NotOwner) ∧
    (∀ (sender : Address) (funds amount : Nat) (s : ControllerState),
      amount ≤ funds →
      deposit sender funds amount s =
        .ok { s with balance := s.balance + amount }) ∧
    (∀ (sender : Address) (funds amount : Nat) (s : ControllerState),
      (deposit sender funds amount s).isOk =
        (deposit env.owner funds amount s).isOk) ∧
    (∀ (op : ContractCall) (s s' : ControllerState),
      stepCall env op s = .ok s' → s'.balance < s.balance →
      (∃ now toAddr amount c sig, op = .execTransfer now toAddr amount c sig) ∨
      (∃ amount, op = .withdrawCall env.owner amount)) := by
  refine ⟨?_, ?_, ?_, ?_⟩
  · intro sender amount s hs
    unfold withdraw
    simp [hs]
  · intro sender funds amount s hf
    unfold deposit
    simp [hf]
  · intro sender funds amount s
    unfold deposit
    by_cases hf : amount ≤ funds <;> simp [hf]
  · intro op s s' hok hlt
    cases op with
    | execTransfer now toAddr amount c sig =>
        exact Or.inl ⟨now, toAddr, amount, c, sig, rfl⟩
    | depositCall sender funds amount =>
        exfalso
        unfold stepCall deposit at hok
        by_cases hf : amount ≤ funds
        · simp [hf] at hok
          rw [← hok] at hlt
          simp at hlt
        · simp [hf] at hok
    | withdrawCall sender amount =>
        refine Or.inr ⟨amount, ?_⟩
        unfold stepCall withdraw at hok
        by_cases hs : sender = env.owner
        · rw [hs]
        · simp [hs] at hok

/-- Witness for C7's amended claim: withdraw by non-owner 2 fails with
`NotOwner`; deposit by the same non-owner succeeds. -/
theorem custody_management_amended_witness :
    withdraw ⟨1, fun sig _ => sig⟩ 2 5 ⟨[], 100, []⟩ = .error .NotOwner ∧
    deposit 2 10 5 ⟨[], 100, []⟩ = .ok ⟨[], 105, []⟩ := by
  constructor
  · exact (custody_management_amended ⟨1, fun sig _ => sig⟩).1 2 5
      ⟨[], 100, []⟩ (by decide)
  · exact (custody_management_amended ⟨1, fun sig _ => sig⟩).2.1 2 10 5
      ⟨[], 100, []⟩ (by decide)

/-!
Part 2 embeds the `X402Middleware` class (x402 payment middleware for the
Arc blockchain): the HTTP 402 payment-challenge gate.  `verifyPayment`
checks the x402 version, the `exact` scheme and the network tag, then
`verifyOnChain` queries the ledger for the referenced transaction and its
receipt, decodes the ERC20 `transfer` call (falling back to the receipt's
logs when the decoded recipient is wrong, because that `throw` is raised
inside the surrounding `try` and caught by its `catch`), and finally
compares the transferred value with the required amount.  Amounts are in
USDC base units (the `ethers.parseUnits(amount, 6)` decimal-string
conversion is abstracted away); addresses and transaction hashes are `Nat`
as before.  The model takes the `facilitatorUrl: null` configuration — the
facilitator branch is not entered.  JS exceptions thrown by `verifyPayment`
become the `Except` error arm; the middleware's `catch` turns any of them
into a 402 response. -/

/-- Check that the character list `s` starts with the character list
`pre` (the model of JavaScript `String.prototype.startsWith`). -/
def charsLead : List Char → List Char → Bool
  | [], _ => true
  | _ :: _, [] => false
  | a :: as, b :: bs => a == b && charsLead as bs

/-- String version of `charsLead`: does `s` start with `pre`? -/
def strStarts (pre s : String) : Bool := charsLead pre.toList s.toList

/-- Configuration of one `X402Middleware` instance: `chainId` (default
5042002), the `payTo` recipient wallet and the USDC contract address. -/
structure X402Config where
  chainId : Nat
  payTo : Address
  usdcAddress : Address
deriving DecidableEq, Repr

/-- The `payload` of an x402 payment header for the `exact` scheme:
`{txHash, from, signature}`, each optional in the source ( `from` is a
Lean keyword, hence `senderFrom`). -/
structure X402Payload where
  txHash : Option Nat
  senderFrom : Address
  signature : Option Nat
deriving DecidableEq, Repr

/-- An x402 payment object parsed from the `X-PAYMENT` header:
`{x402Version, scheme, network, payload}`. -/
structure X402Payment where
  x402Version : Nat
  scheme : String
  network : String
  payload : X402Payload
deriving DecidableEq, Repr

/-- What the ledger records about one transaction, as the middleware reads
it: `tx.to`, `tx.from`, the decoded ERC20 `transfer(to, amount)` call data
when `interface.parseTransaction` recognizes one (else `none`), the first
receipt log at the USDC address with at least three topics decoded as
`(to, amount)` (else `none`), and the block timestamp. -/
structure ChainTx where
  txTo : Address
  txFrom : Address
  decodedTransfer : Option (Address × Nat)
  logTransfer : Option (Address × Nat)
  blockTimestamp : Nat
deriving DecidableEq, Repr

/-- The ledger-query capability: `receiptOk h` is "getTransactionReceipt
returns a receipt with `status == 1`", `getTx h` is `getTransaction`. -/
structure ArcLedger where
  receiptOk : Nat → Bool
  getTx : Nat → Option ChainTx

/-- The errors `verifyPayment` / `verifyOnChain` can throw, one per
`throw new Error(...)` site, plus `ValueUndefined` for the path where the
transaction is addressed to the USDC contract or the service wallet but
`parseTransaction` does not yield a `transfer` call: there `value` stays
`undefined` in the source, the `value < required` comparison is false on
`undefined`, and `ethers.formatUnits(undefined, 6)` raises while the
result object is built. -/
inductive X402Error where
  | UnsupportedVersion
  | UnsupportedScheme
  | NetworkMismatch
  | TxNotFoundOrFailed
  | TxNotFound
  | WrongRecipient
  | CouldNotVerifyTransfer
  | NotToUsdcOrService
  | InsufficientAmount
  | ValueUndefined
  | SignatureNotImplemented
  | MissingTxHashOrSignature
deriving DecidableEq, Repr

/-- The settlement record a successful verification returns:
`{valid: true, txHash, from, amount, timestamp}`. -/
structure X402Settlement where
  txHash : Nat
  txFrom : Address
  amount : Nat
  timestamp : Nat
deriving DecidableEq, Repr

/-- The receipt-log fallback inside `verifyOnChain`: reached when the
decoded `transfer` recipient differs from `payTo` (that `throw` lands in
the `catch (e)` block).  Reads the first USDC-address log, rejects a wrong
recipient, then rejoins the shared amount check and result construction. -/
def verifyFromLogs (cfg : X402Config) (t : ChainTx) (h : Nat)
    (requiredAmount : Nat) : Except X402Error X402Settlement :=
  match t.logTransfer with
  | some (logTo, v) =>
      if logTo ≠ cfg.payTo then .error .WrongRecipient
      else if v < requiredAmount then .error .InsufficientAmount
      else .ok { txHash := h, txFrom := t.txFrom, amount := v,
                 timestamp := t.blockTimestamp }
  | none => .error .CouldNotVerifyTransfer

/-- `verifyOnChain(payload, requiredAmount)`: receipt lookup (must exist
with `status == 1`), transaction lookup, destination check
(`tx.to` must be the USDC contract or the `payTo` wallet), decode of the
ERC20 `transfer`, recipient check, then `value < required` check. -/
def verifyOnChain (cfg : X402Config) (L : ArcLedger) (payload : X402Payload)
    (requiredAmount : Nat) : Except X402Error X402Settlement :=
  match payload.txHash with
  | some h =>
      if L.receiptOk h then
        match L.getTx h with
        | none => .error .TxNotFound
        | some t =>
            if t.txTo = cfg.usdcAddress ∨ t.txTo = cfg.payTo then
              match t.decodedTransfer with
              | some (rcpt, v) =>
                  if rcpt = cfg.payTo then
                    if v < requiredAmount then .error .InsufficientAmount
                    else .ok { txHash := h, txFrom := t.txFrom, amount := v,
                               timestamp := t.blockTimestamp }
                  else verifyFromLogs cfg t h requiredAmount
              | none => .error .ValueUndefined
            else .error .NotToUsdcOrService
      else .error .TxNotFoundOrFailed
  | none =>
      match payload.signature with
      | some _ => .error .SignatureNotImplemented
      | none => .error .MissingTxHashOrSignature

/-- `verifyPayment(payment, requiredAmount)` with no facilitator
configured: version check, scheme check, network-tag check
(`network.startsWith('arc-testnet:' + chainId)`), then on-chain
verification. -/
def verifyPayment (cfg : X402Config) (L : ArcLedger) (payment : X402Payment)
    (requiredAmount : Nat) : Except X402Error X402Settlement :=
  if payment.x402Version ≠ 1 then .error .UnsupportedVersion
  else if payment.scheme ≠ "exact" then .error .UnsupportedScheme
  else if strStarts ("arc-testnet:" ++ toString cfg.chainId) payment.network
      then verifyOnChain cfg L payment.payload requiredAmount
  else .error .NetworkMismatch

/-- Outcome of one request through the Express middleware: a 402 response
(no header, a verification failure, or an unparseable header — the last
two both land in the `catch` that re-issues the 402), or `next()` with the
settlement attached to the request and echoed in `X-PAYMENT-RESPONSE`. -/
inductive MwOutcome where
  | paymentRequired (err : Option X402Error)
  | proceed (settlement : X402Settlement)
deriving DecidableEq, Repr

/-- One request through `middleware()`: the header, when present, is the
parsed payment object (base64/JSON decoding abstracted; a malformed header
takes the same `catch` path as a failed verification). -/
def middlewareHandle (cfg : X402Config) (L : ArcLedger)
    (header : Option X402Payment) (requiredAmount : Nat) : MwOutcome :=
  match header with
  | none => .paymentRequired none
  | some p =>
      match verifyPayment cfg L p requiredAmount with
      | .ok r => .proceed r
      | .error e => .paymentRequired (some e)

/-- Concrete middleware configuration used by the witnesses: chain id
5042002, service wallet 77, USDC contract 88. -/
def cfgEx : X402Config := ⟨5042002, 77, 88⟩

/-- Concrete ledger for the witnesses: transaction 55 is confirmed, sent
to the USDC contract, decoding as `transfer(77, 3000)`. -/
def ledgerEx : ArcLedger :=
  ⟨fun h => h == 55,
   fun h => if h == 55 then some ⟨88, 66, some (77, 3000), none, 1234⟩
            else none⟩

/-- Concrete payment header for the witnesses. -/
def paymentEx : X402Payment :=
  ⟨1, "exact", "arc-testnet:5042002", ⟨some 55, 66, none⟩⟩

/-- Claim C6: `verifyPayment` checks, in order, (1) x402 version 1 and the
`exact` scheme, (2) the configured network tag, (3) that the referenced
transaction exists with a succeeded receipt, (4) that the verified
transfer's recipient is the configured `payTo` and its amount at least the
required amount; a failure at any stage reports that stage's rejection
(the earliest one), only the all-pass path returns the settlement record,
any success implies all four checks held, and an otherwise-valid payment
whose amount is strictly below the requirement is rejected as insufficient. -/
theorem verifyPayment_checks_in_order (cfg : X402Config) (L : ArcLedger)
    (p : X402Payment) (amt : Nat) :
    (p.x402Version ≠ 1 →
      verifyPayment cfg L p amt = .error .UnsupportedVersion) ∧
    (p.x402Version = 1 → p.scheme ≠ "exact" →
      verifyPayment cfg L p amt = .error .UnsupportedScheme) ∧
    (p.x402Version = 1 → p.scheme = "exact" →
      ¬ strStarts ("arc-testnet:" ++ toString cfg.chainId) p.network →
      verifyPayment cfg L p amt = .error .NetworkMismatch) ∧
    (∀ h, p.x402Version = 1 → p.scheme = "exact" →
      strStarts ("arc-testnet:" ++ toString cfg.chainId) p.network →
      p.payload.txHash = some h → ¬ L.receiptOk h →
      verifyPayment cfg L p amt = .error .TxNotFoundOrFailed) ∧
    (∀ h t v, p.x402Version = 1 → p.scheme = "exact" →
      strStarts ("arc-testnet:" ++ toString cfg.chainId) p.network →
      p.payload.txHash = some h → L.receiptOk h → L.getTx h = some t →
      (t.txTo = cfg.usdcAddress ∨ t.txTo = cfg.payTo) →
      t.decodedTransfer = some (cfg.payTo, v) → v < amt →
      verifyPayment cfg L p amt = .error .InsufficientAmount) ∧
    (∀ h t v, p.x402Version = 1 → p.scheme = "exact" →
      strStarts ("arc-testnet:" ++ toString cfg.chainId) p.network →
      p.payload.txHash = some h → L.receiptOk h → L.getTx h = some t →
      (t.txTo = cfg.usdcAddress ∨ t.txTo = cfg.payTo) →
      t.decodedTransfer = some (cfg.payTo, v) → amt ≤ v →
      verifyPayment cfg L p amt =
        .ok ⟨h, t.txFrom, v, t.blockTimestamp⟩) ∧
    (∀ r, verifyPayment cfg L p amt = .ok r →
      p.x402Version = 1 ∧ p.scheme = "exact" ∧
      strStarts ("arc-testnet:" ++ toString cfg.chainId) p.network ∧
      ∃ h t, p.payload.txHash = some h ∧ L.receiptOk h ∧
        L.getTx h = some t ∧ amt ≤ r.amount ∧
        (t.decodedTransfer = some (cfg.payTo, r.amount) ∨
         t.logTransfer = some (cfg.payTo, r.amount))) := by
  refine ⟨?_, ?_, ?_, ?_, ?_, ?_, ?_⟩
  · intro h1
    unfold verifyPayment
    simp [h1]
  · intro h1 h2
    unfold verifyPayment
    simp [h1, h2]
  · intro h1 h2 h3
    unfold verifyPayment
    simp [h1, h2, h3]
  · intro h h1 h2 h3 h4 h5
    unfold verifyPayment verifyOnChain
    simp [h1, h2, h3, h4, h5]
  · intro h t v h1 h2 h3 h4 h5 h6 h7 h8 h9
    unfold verifyPayment verifyOnChain
    simp [h1, h2, h3, h4, h5, h6, h7, h8, h9]
  · intro h t v h1 h2 h3 h4 h5 h6 h7 h8 h9
    unfold verifyPayment verifyOnChain
    simp [h1, h2, h3, h4, h5, h6, h7, h8, Nat.not_lt.2 h9]
  · intro r hr
    unfold verifyPayment at hr
    by_cases h1 : p.x402Version = 1
    swap
    · simp [h1] at hr
    by_cases h2 : p.scheme = "exact"
    swap
    · simp [h1, h2] at hr
    by_cases h3 : strStarts ("arc-testnet:" ++ toString cfg.chainId) p.network
    swap
    · simp [h1, h2, h3] at hr
    simp only [h1, h2, h3, ne_eq, not_true_eq_false, if_false, if_true] at hr
    refine ⟨h1, h2, h3, ?_⟩
    unfold verifyOnChain at hr
    cases hx : p.payload.txHash with
    | none =>
        rw [hx] at hr
        cases hs : p.payload.signature <;> rw [hs] at hr <;> simp at hr
    | some hh =>
        rw [hx] at hr
        by_cases hrc : L.receiptOk hh
        swap
        · simp [hrc] at hr
        simp only [hrc, if_true] at hr
        cases hgt : L.getTx hh with
        | none =>
            simp [hgt] at hr
        | some t =>
            simp only [hgt] at hr
            by_cases hdest : t.txTo = cfg.usdcAddress ∨ t.txTo = cfg.payTo
            swap
            · simp [hdest] at hr
            rw [if_pos hdest] at hr
            cases hdec : t.decodedTransfer with
            | none =>
                simp [hdec] at hr
            | some pr =>
                obtain ⟨rcpt, v⟩ := pr
                simp only [hdec] at hr
                by_cases hb : rcpt = cfg.payTo
                · rw [if_pos hb] at hr
                  by_cases hlt : v < amt
                  · simp [hlt] at hr
                  · rw [if_neg hlt] at hr
                    simp only [Except.ok.injEq] at hr
                    subst hr
                    exact ⟨hh, t, rfl, hrc, hgt, Nat.not_lt.1 hlt,
                      Or.inl (by rw [hdec, hb])⟩
                · rw [if_neg hb] at hr
                  unfold verifyFromLogs at hr
                  cases hlg : t.logTransfer with
                  | none =>
                      simp [hlg] at hr
                  | some lg =>
                      obtain ⟨logTo, v'⟩ := lg
                      simp only [hlg] at hr
                      by_cases hlb : logTo = cfg.payTo
                      · rw [if_neg (by simp [hlb])] at hr
                        by_cases hlt : v' < amt
                        · simp [hlt] at hr
                        · rw [if_neg hlt] at hr
                          simp only [Except.ok.injEq] at hr
                          subst hr
                          exact ⟨hh, t, rfl, hrc, hgt, Nat.not_lt.1 hlt,
                            Or.inr (by rw [hlg, hlb])⟩
                      · rw [if_pos hlb] at hr
                        simp at hr

/-- Witness for C6: on the concrete ledger, the concrete confirmed payment
of 3000 base units verifies against a 3000 requirement and is rejected as
insufficient against a 5000 requirement. -/
theorem verifyPayment_checks_in_order_witness :
    verifyPayment cfgEx ledgerEx paymentEx 3000 = .ok ⟨55, 66, 3000, 1234⟩ ∧
    verifyPayment cfgEx ledgerEx paymentEx 5000 =
      .error .InsufficientAmount := by
  constructor
  · exact (verifyPayment_checks_in_order cfgEx ledgerEx
      paymentEx 3000).2.2.2.2.2.1 55 ⟨88, 66, some (77, 3000), none, 1234⟩
      3000 rfl rfl (by decide) rfl rfl rfl (Or.inl rfl) rfl (by decide)
  · exact (verifyPayment_checks_in_order cfgEx ledgerEx
      paymentEx 5000).2.2.2.2.1 55 ⟨88, 66, some (77, 3000), none, 1234⟩
      3000 rfl rfl (by decide) rfl rfl rfl (Or.inl rfl) rfl (by decide)

/-- Claim C9: the payment gate keeps no record of consumed proofs —
verification is a pure function of the configuration, the ledger and the
request — so a payment header that verifies once verifies identically on
every one of `n` presentations: one on-ledger payment unlocks unboundedly
many protected calls. -/
theorem x402_verification_stateless (cfg : X402Config) (L : ArcLedger)
    (p : X402Payment) (amt : Nat) (r : X402Settlement)
    (hv : verifyPayment cfg L p amt = .ok r) (n : Nat) :
    (List.replicate n (some p)).map
        (fun header => middlewareHandle cfg L header amt) =
      List.replicate n (.proceed r) := by
  simp [List.map_replicate, middlewareHandle, hv]

/-- Witness for C9: the concrete payment above unlocks three successive
requests, each verifying exactly as the first. -/
theorem x402_verification_stateless_witness :
    (List.replicate 3 (some paymentEx)).map
        (fun header => middlewareHandle cfgEx ledgerEx header 3000) =
      List.replicate 3 (.proceed ⟨55, 66, 3000, 1234⟩) :=
  x402_verification_stateless cfgEx ledgerEx paymentEx 3000
    ⟨55, 66, 3000, 1234⟩ rfl 3

/-!
Part 3 embeds the zkML step of `handleSettle` in the USDC Compliance Agent
server together with the `ZkmlClient` fallback (shared/zkml-client): when
the prover binary is absent (`zkml.isAvailable()` false) the handler calls
`createMockProof(screening APPROVED ? 1 : 0, screening APPROVED ? 0.95 :
0.1)`, and when `generateProof` rejects (nonzero exit, no JSON line) the
rejection reaches the handler's outer `catch`, which answers the caller
with HTTP 500 / an SSE `error` event.  JS numbers are modelled as exact
rationals; `createMockProof`'s random `proof_hash` and timing fields play
no role in the settlement decision and are omitted. -/

/-- The slice of a proof object the settlement decision reads: the
`decision` string, the confidence (input confidence times 100) and the
`mock` marker. -/
structure MockProofR where
  decision : String
  confidence : ℚ
  mock : Bool
deriving DecidableEq, Repr

/-- `ZkmlClient.createMockProof(decision, confidence)`: decision `1` maps
to the string `AUTHORIZED`, anything else to `DENIED`. -/
def createMockProof (decision : Nat) (confidence : ℚ) : MockProofR :=
  { decision := if decision = 1 then "AUTHORIZED" else "DENIED",
    confidence := confidence * 100,
    mock := true }

/-- Step 4 of `handleSettle`: the real prover when available (its rejection
propagating), the screening-mirroring mock proof otherwise. -/
def settleProofStep (zkmlAvailable : Bool)
    (oracleRun : Except String MockProofR) (screeningApproved : Bool) :
    Except String MockProofR :=
  if zkmlAvailable then oracleRun
  else .ok (createMockProof (if screeningApproved then 1 else 0)
              (if screeningApproved then 95 / 100 else 1 / 10))

/-- What the caller of `/settle` sees: a fatal HTTP 500 / SSE `error`
(the outer `catch`), or a completed settlement whose `approved` flag
decides whether funds move. -/
inductive SettleResult where
  | fatal500 (msg : String)
  | completed (approved : Bool)
deriving DecidableEq, Repr

/-- The settlement flow from the proof step on: an exception anywhere
reaches the outer `catch` and is reported fatally; otherwise `approved :=
proof.decision === 'AUTHORIZED' && screening.result === 'APPROVED'`
controls the transfer. -/
def settleOutcome (zkmlAvailable : Bool)
    (oracleRun : Except String MockProofR) (screeningApproved : Bool) :
    SettleResult :=
  match settleProofStep zkmlAvailable oracleRun screeningApproved with
  | .error msg => .fatal500 msg
  | .ok proof => .completed (proof.decision == "AUTHORIZED" && screeningApproved)

/-- Claim C8 counterexample: with the oracle binary unavailable and the
compliance screening approving, the fallback mock proof carries decision
`AUTHORIZED`, so the settlement completes approved — the conservative
default is the screening mirror, not deny; and with the oracle available
but its output unusable, the rejection propagates to the caller as a
fatal 500 instead of being recovered locally. -/
theorem settle_oracle_fallback_cex :
    settleOutcome false (.error "Proof generation failed") true =
      .completed true ∧
    settleOutcome true (.error "Proof generation failed") true =
      .fatal500 "Proof generation failed" := by
  constructor <;> rfl

/-- Claim C8 as amended: when the prover binary is unavailable the flow
recovers locally with a mock proof whose decision mirrors the screening
result — the settlement is approved exactly when screening approved, not
denied by default; and when the prover runs but its output is unusable,
the error is not recovered: it propagates to the caller as a fatal
settlement failure carrying the oracle's message. -/
theorem settle_oracle_fallback_amended (oracleRun : Except String MockProofR)
    (screeningApproved : Bool) :
    settleOutcome false oracleRun screeningApproved =
      .completed screeningApproved ∧
    (∀ msg, settleOutcome true (.error msg) screeningApproved =
      .fatal500 msg) := by
  constructor
  · unfold settleOutcome settleProofStep createMockProof
    cases screeningApproved <;> simp
  · intro msg
    unfold settleOutcome settleProofStep
    simp

/-!
Part 4 embeds the x402 payment gate of the trustless-robot-commerce server
(`verifyPaymentProof`): an in-memory `paymentReceipts` map (here an
association list), a cache-hit fast path, a transaction-hash format check
(the regex `^0x[a-fA-F0-9]{64}$`), an on-chain path only when
`USE_REAL_GATEWAY && WITNESSBOT.hasRealWallet` holds (whose thrown ledger
errors fall through to the simulated path), and a simulated path that
accepts any well-formed hash and caches it.  The receipts' `Date.now()`
timestamp is nondeterministic wall-clock data and is omitted; the JS map
value's remaining fields are kept. -/

/-- Decide the character class `[a-fA-F0-9]` of the tx-hash regex. -/
def isHexDigit (c : Char) : Bool :=
  c.isDigit || ("a".front ≤ c && c ≤ "f".front) ||
    ("A".front ≤ c && c ≤ "F".front)

/-- Decide the regex `^0x[a-fA-F0-9]{64}$` of `verifyPaymentProof`. -/
def isTxHashFormat (s : String) : Bool :=
  match s.toList with
  | '0' :: 'x' :: rest => rest.length == 64 && rest.all isHexDigit
  | _ => false

/-- How a cached receipt was produced: a real on-chain verification, the
simulated demo path, or the synchronous legacy wrapper. -/
inductive VerTag where
  | onChain
  | simulated
  | syncOnly
deriving DecidableEq, Repr

/-- One entry of the `paymentReceipts` map: the amount and recipient the
entry was stored with, and how it was verified. -/
structure RCReceipt where
  amount : Nat
  recipient : Address
  tag : VerTag
deriving DecidableEq, Repr

/-- The in-memory `paymentReceipts` map, keyed by the proof string. -/
abbrev Receipts := List (String × RCReceipt)

/-- Map lookup (`paymentReceipts.get`). -/
def lookupReceipt (rs : Receipts) (k : String) : Option RCReceipt :=
  match rs with
  | [] => none
  | (k', v) :: rest => if k' = k then some v else lookupReceipt rest k

/-- Map insertion/overwrite (`paymentReceipts.set`). -/
def setReceipt (rs : Receipts) (k : String) (v : RCReceipt) : Receipts :=
  match rs with
  | [] => [(k, v)]
  | (k', v') :: rest =>
      if k' = k then (k, v) :: rest else (k', v') :: setReceipt rest k v

/-- The Base Sepolia ledger as the server queries it: whether the provider
call throws (network failure — caught and falling through to the demo
path), whether `getTransaction` finds the transaction, and whether its
receipt exists with `status == 1`. -/
structure RobotLedger where
  queryThrows : String → Bool
  txFound : String → Bool
  receiptStatusOk : String → Bool

/-- Where a successful verification came from. -/
inductive VPPSource where
  | cache
  | onChain
  | simulated
deriving DecidableEq, Repr

/-- Result object of `verifyPaymentProof`: `{verified:false, reason}` or
`{verified:true, source}`. -/
inductive VPPResult where
  | failure (reason : String)
  | verified (source : VPPSource)
deriving DecidableEq, Repr

/-- The post-cache part of `verifyPaymentProof`: format check, then the
real on-chain path when enabled (its exceptions falling back to the
simulated acceptance), else the simulated acceptance that caches
`{amount: expectedAmount, recipient: recipientAddress, verified:
'simulated'}`. -/
def verifyPaymentProofFresh (useRealGateway hasRealWallet : Bool)
    (L : RobotLedger) (p : String) (expectedAmount : Nat)
    (recipientAddress : Address) (receipts : Receipts) :
    Receipts × VPPResult :=
  if isTxHashFormat p = false then
    (receipts, .failure "Invalid transaction hash format")
  else if useRealGateway && hasRealWallet then
    if L.queryThrows p then
      (setReceipt receipts p ⟨expectedAmount, recipientAddress, .simulated⟩,
       .verified .simulated)
    else if L.txFound p = false then
      (receipts, .failure "Transaction not found on Base Sepolia")
    else if L.receiptStatusOk p = false then
      (receipts, .failure "Transaction not confirmed or failed")
    else
      (setReceipt receipts p ⟨expectedAmount, recipientAddress, .onChain⟩,
       .verified .onChain)
  else
    (setReceipt receipts p ⟨expectedAmount, recipientAddress, .simulated⟩,
     .verified .simulated)

/-- `verifyPaymentProof(paymentProof, expectedAmount, recipientAddress)`:
missing proof, then the cache fast path (hit only when the cached amount
covers `expectedAmount` and the recipient matches — otherwise control
falls through), then `verifyPaymentProofFresh`. -/
def verifyPaymentProof (useRealGateway hasRealWallet : Bool)
    (L : RobotLedger) (paymentProof : Option String) (expectedAmount : Nat)
    (recipientAddress : Address) (receipts : Receipts) :
    Receipts × VPPResult :=
  match paymentProof with
  | none => (receipts, .failure "No payment proof provided")
  | some p =>
      match lookupReceipt receipts p with
      | some receipt =>
          if expectedAmount ≤ receipt.amount ∧
              receipt.recipient = recipientAddress then
            (receipts, .verified .cache)
          else
            verifyPaymentProofFresh useRealGateway hasRealWallet L p
              expectedAmount recipientAddress receipts
      | none =>
          verifyPaymentProofFresh useRealGateway hasRealWallet L p
            expectedAmount recipientAddress receipts

/-- Lookup after insertion finds the inserted receipt. -/
theorem lookupReceipt_setReceipt (rs : Receipts) (k : String)
    (v : RCReceipt) : lookupReceipt (setReceipt rs k v) k = some v := by
  induction rs with
  | nil => simp [setReceipt, lookupReceipt]
  | cons kv rest ih =>
      obtain ⟨k', v'⟩ := kv
      unfold setReceipt
      by_cases hk : k' = k
      · simp [hk, lookupReceipt]
      · simp [hk, lookupReceipt, ih]

/-- Claim C10: whenever the real on-chain path is disabled (`urg && hrw`
false) or its ledger query throws, a first presentation of any proof
string matching `^0x[a-fA-F0-9]{64}$` is accepted as verified with source
`simulated` without consulting the ledger's transaction data, the receipt
cache gains the entry `{amount := expectedAmount, recipient, simulated}`,
and a second presentation of the same string (same amount and recipient)
is verified straight from the cache. -/
theorem robot_payment_simulated_accept (urg hrw : Bool) (L : RobotLedger)
    (p : String) (amt : Nat) (rcpt : Address) (receipts : Receipts)
    (hdis : (urg && hrw) = false ∨ L.queryThrows p = true)
    (hfmt : isTxHashFormat p = true)
    (hmiss : lookupReceipt receipts p = none) :
    (verifyPaymentProof urg hrw L (some p) amt rcpt receipts).2 =
        .verified .simulated ∧
    lookupReceipt (verifyPaymentProof urg hrw L (some p) amt rcpt receipts).1
        p = some ⟨amt, rcpt, .simulated⟩ ∧
    (verifyPaymentProof urg hrw L (some p) amt rcpt
        (verifyPaymentProof urg hrw L (some p) amt rcpt receipts).1).2 =
      .verified .cache := by
  have hfresh : verifyPaymentProof urg hrw L (some p) amt rcpt receipts =
      (setReceipt receipts p ⟨amt, rcpt, .simulated⟩, .verified .simulated) := by
    unfold verifyPaymentProof
    simp only [hmiss]
    unfold verifyPaymentProofFresh
    rcases hdis with hd | hd
    · simp [hfmt, hd]
    · by_cases hg : (urg && hrw) = true <;> simp [hfmt, hd, hg]
  refine ⟨by rw [hfresh], ?_, ?_⟩
  · rw [hfresh]
    exact lookupReceipt_setReceipt receipts p ⟨amt, rcpt, .simulated⟩
  · rw [hfresh]
    unfold verifyPaymentProof
    simp [lookupReceipt_setReceipt receipts p ⟨amt, rcpt, .simulated⟩]

/-- Witness for C10: with the real gateway disabled and an empty cache, the
well-formed hash of 64 zeros is accepted as simulated, cached, and then
served from the cache. -/
theorem robot_payment_simulated_accept_witness :
    (verifyPaymentProof false false ⟨fun _ => false, fun _ => false,
        fun _ => false⟩
      (some "0x0000000000000000000000000000000000000000000000000000000000000000")
      50 9 []).2 = .verified .simulated ∧
    lookupReceipt (verifyPaymentProof false false ⟨fun _ => false,
        fun _ => false, fun _ => false⟩
      (some "0x0000000000000000000000000000000000000000000000000000000000000000")
      50 9 []).1
      "0x0000000000000000000000000000000000000000000000000000000000000000" =
      some ⟨50, 9, .simulated⟩ ∧
    (verifyPaymentProof false false ⟨fun _ => false, fun _ => false,
        fun _ => false⟩
      (some "0x0000000000000000000000000000000000000000000000000000000000000000")
      50 9
      (verifyPaymentProof false false ⟨fun _ => false, fun _ => false,
          fun _ => false⟩
        (some "0x0000000000000000000000000000000000000000000000000000000000000000")
        50 9 []).1).2 = .verified .cache :=
  robot_payment_simulated_accept false false
    ⟨fun _ => false, fun _ => false, fun _ => false⟩
    "0x0000000000000000000000000000000000000000000000000000000000000000"
    50 9 [] (Or.inl rfl) (by decide) rfl
